import Mathlib

/-!
Verification of the viewer core of a three.js/React model-viewer
(src/src/viewer/viewer.ts and collaborators) against its specification.

Materials are modelled by natural-number handles so that object identity
of material instances is equality of handles; a `new` material is a fresh
handle drawn from a counter.  Scene objects are modelled by the data the
viewer reads and writes on them: whether the object is a `THREE.Mesh`,
its current material, and the `userData.originalMaterial` side slot.
-/

/-- Per-object data the selection logic touches: `instanceof THREE.Mesh`,
the current `material` handle, and the `userData.originalMaterial` stash
(viewer.ts lines 283-296). -/
structure ObjData where
  isMesh : Bool
  material : Nat
  originalMaterial : Option Nat
deriving DecidableEq, Repr

/-- Selection-relevant viewer state: the store of objects (indexed by
object id), the `_selectedObject` slot (viewer.ts line 23), and the
allocation counter for fresh material handles. -/
structure SelState where
  objs : Nat → ObjData
  selected : Option Nat
  nextMat : Nat

/-- `Viewer.resetObjectMaterial` (viewer.ts lines 292-297): if the object
is a mesh and has a cached `originalMaterial`, restore that exact material
handle and delete the cache slot; otherwise do nothing. -/
def resetObjectMaterial (s : SelState) (oid : Nat) : SelState :=
  match (s.objs oid).isMesh, (s.objs oid).originalMaterial with
  | true, some m =>
    { s with objs := fun i => if i = oid then
        { s.objs oid with material := m, originalMaterial := none }
      else s.objs i }
  | _, _ => s

/-- The reset-the-previous-selection phase shared by `highlightObject`
(viewer.ts lines 278-280) and `onMouseClick` (lines 261-263, 270-271):
if `_selectedObject` is non-null, `resetObjectMaterial` is applied to it. -/
def restorePrevious (s : SelState) : SelState :=
  match s.selected with
  | some p => resetObjectMaterial s p
  | none => s

/-- `Viewer.highlightObject` (viewer.ts lines 277-290): restore the
previous selection, record the new one, and if it is a mesh, stash its
current material in `userData.originalMaterial` and swap in a freshly
allocated wireframe highlight material. -/
def highlightObject (s : SelState) (oid : Nat) : SelState :=
  let s1 := restorePrevious s
  if (s1.objs oid).isMesh then
    { objs := fun i => if i = oid then
        { s1.objs oid with
          originalMaterial := some (s1.objs oid).material,
          material := s1.nextMat }
      else s1.objs i,
      selected := some oid,
      nextMat := s1.nextMat + 1 }
  else { s1 with selected := some oid }

/-- `Viewer.onMouseClick` (viewer.ts lines 246-275), abstracted over the
raycast result: a hit resets the previous selection, records the hit as
selected and calls `highlightObject` on it; a miss resets the previous
selection and clears the selection slot. -/
def onMouseClick (s : SelState) (hit : Option Nat) : SelState :=
  match hit with
  | some oid => highlightObject { restorePrevious s with selected := some oid } oid
  | none => { restorePrevious s with selected := none }

/-- The selection operations a UI consumer can drive: `highlightObject`
(from the hierarchy widget) and a click-pick with a given raycast result. -/
inductive SelOp where
  | highlight (oid : Nat)
  | click (hit : Option Nat)

/-- Apply one selection operation. -/
def applySelOp (s : SelState) : SelOp → SelState
  | .highlight oid => highlightObject s oid
  | .click hit => onMouseClick s hit

/-- Apply a sequence of selection operations in order. -/
def applySelOps (ops : List SelOp) (s : SelState) : SelState :=
  ops.foldl applySelOp s

/-- Selection invariant: any object whose `originalMaterial` slot is
occupied (i.e. currently wearing the highlight material) is the selected
object and is a mesh.  This holds initially (no slot occupied). -/
def SelInv (s : SelState) : Prop :=
  ∀ a, ((s.objs a).originalMaterial).isSome = true →
    s.selected = some a ∧ (s.objs a).isMesh = true

/-!
Scene-graph trees, synthetic status metadata and label sprites
(viewer.ts lines 148-243).
-/

/-- The object kinds the viewer distinguishes: `THREE.Mesh` leaves, any
other `THREE.Object3D` (groups, lights, plain sprites, ...), and the
status-label sprites manufactured by `addTextLabel` — a `THREE.Sprite`
carrying the rendered status text and its palette background colour
(viewer.ts lines 202-210). -/
inductive NodeKind where
  | mesh
  | other
  | label (code : Nat) (text : String) (bg : String)
deriving DecidableEq, Repr

/-- `userData.propertyValue` as written by `assignPropertyValues`
(viewer.ts lines 235-238): a status code and the text looked up in the
`progressStatuses` table (the lookup can miss, hence `Option`). -/
structure PropertyValue where
  statusCode : Nat
  statusText : Option String
deriving DecidableEq, Repr

/-- A scene-graph node: identity (`THREE.Object3D.id`), kind, the
`userData.propertyValue` bag entry, and child nodes. -/
inductive SceneNode where
  | node (id : Nat) (kind : NodeKind) (propertyValue : Option PropertyValue)
      (children : List SceneNode)
deriving Repr

/-- The kind of the root of a node. -/
def SceneNode.kindOf : SceneNode → NodeKind
  | .node _ k _ _ => k

/-- Whether a kind is a status-label sprite. -/
def NodeKind.isLabel : NodeKind → Bool
  | .label _ _ _ => true
  | _ => false

/-- The `progressStatuses` table (viewer.ts lines 226-231), a partial map
from status code to status text. -/
def progressStatuses : Nat → Option String
  | 1 => some "Not Started"
  | 2 => some "In Progress"
  | 3 => some "Partially Installed"
  | 4 => some "Installed"
  | _ => none

/-- The synthetic status for a mesh of identity `i` (viewer.ts lines
234-238): code `(i % 4) + 1` paired with its `progressStatuses` text.
A pure function of the identity alone. -/
def statusOf (i : Nat) : PropertyValue :=
  { statusCode := (i % 4) + 1, statusText := progressStatuses ((i % 4) + 1) }

mutual

/-- `Viewer.assignPropertyValues` (viewer.ts lines 222-243): traverse the
tree and give every mesh node `userData.propertyValue := statusOf id`. -/
def assignPropertyValues : SceneNode → SceneNode
  | .node i k pv cs =>
    .node i k (if k = NodeKind.mesh then some (statusOf i) else pv)
      (assignPropertyValuesList cs)

/-- Traversal of `assignPropertyValues` over a child list. -/
def assignPropertyValuesList : List SceneNode → List SceneNode
  | [] => []
  | c :: cs => assignPropertyValues c :: assignPropertyValuesList cs

end

/-- The background-colour palette keyed by status code — the `switch` in
`addTextLabel` (viewer.ts lines 164-179). -/
def backgroundColorOf : Nat → String
  | 1 => "rgba(255, 0, 0, 0.8)"
  | 2 => "rgba(255, 165, 0, 0.8)"
  | 3 => "rgba(0, 255, 0, 0.8)"
  | 4 => "rgba(0, 0, 255, 0.8)"
  | _ => "rgba(0, 0, 0, 0.8)"

/-- JavaScript truthiness of the destructured `statusText`: a present,
non-empty string. -/
def textTruthy : Option String → Bool
  | some s => s ≠ ""
  | none => false

/-- JavaScript truthiness of the whole `propertyValue` guard
`if (statusCode && statusText)` after `... = object.userData.propertyValue || {}`
(viewer.ts lines 149-151). -/
def pvTruthy : Option PropertyValue → Bool
  | some v => v.statusCode ≠ 0 && textTruthy v.statusText
  | none => false

/-- `Viewer.addTextLabel` (viewer.ts lines 148-212): when the status code
and text are both truthy, rasterise the label and mount a sprite node as a
new child of the object (`object.add(sprite)`, line 210); otherwise do
nothing.  The 2D canvas context acquisition (line 153) is modelled as
succeeding, as it does in a browser. -/
def addTextLabel : SceneNode → SceneNode
  | .node i k pv cs =>
    match pv with
    | some v =>
      if v.statusCode ≠ 0 && textTruthy v.statusText then
        .node i k pv (cs ++
          [SceneNode.node 0
            (NodeKind.label v.statusCode ((v.statusText).getD "")
              (backgroundColorOf v.statusCode))
            none []])
      else .node i k pv cs
    | none => .node i k pv cs

mutual

/-- `Viewer.addLabelsToModel` (viewer.ts lines 214-220): traverse the tree
and apply `addTextLabel` to every mesh node.  The sprite is appended to
the children of the mesh being visited; the traversal then also visits the
new sprite, which is not a mesh, so no further label is produced for it —
hence the functional form: label the children first, then append the
sprite of this node. -/
def addLabelsToModel : SceneNode → SceneNode
  | .node i k pv cs =>
    let base := SceneNode.node i k pv (addLabelsToModelList cs)
    if k = NodeKind.mesh then addTextLabel base else base

/-- Traversal of `addLabelsToModel` over a child list. -/
def addLabelsToModelList : List SceneNode → List SceneNode
  | [] => []
  | c :: cs => addLabelsToModel c :: addLabelsToModelList cs

end

mutual

/-- Number of mesh nodes in a tree. -/
def countMeshes : SceneNode → Nat
  | .node _ k _ cs => (if k = NodeKind.mesh then 1 else 0) + countMeshesList cs

/-- Number of mesh nodes in a forest. -/
def countMeshesList : List SceneNode → Nat
  | [] => 0
  | c :: cs => countMeshes c + countMeshesList cs

end

mutual

/-- Number of status-label sprite nodes in a tree. -/
def countLabels : SceneNode → Nat
  | .node _ k _ cs => (if k.isLabel then 1 else 0) + countLabelsList cs

/-- Number of status-label sprite nodes in a forest. -/
def countLabelsList : List SceneNode → Nat
  | [] => 0
  | c :: cs => countLabels c + countLabelsList cs

end

mutual

/-- A tree free of status-label sprites — the shape of any tree produced
by deserialization, which only yields scene object kinds. -/
def noLabels : SceneNode → Bool
  | .node _ k _ cs => !k.isLabel && noLabelsList cs

/-- `noLabels` over a forest. -/
def noLabelsList : List SceneNode → Bool
  | [] => true
  | c :: cs => noLabels c && noLabelsList cs

end

mutual

/-- Every mesh in the tree carries a truthy `propertyValue` — the state
`assignPropertyValues` establishes. -/
def allMeshesTruthy : SceneNode → Bool
  | .node _ k pv cs =>
    (if k = NodeKind.mesh then pvTruthy pv else true) && allMeshesTruthyList cs

/-- `allMeshesTruthy` over a forest. -/
def allMeshesTruthyList : List SceneNode → Bool
  | [] => true
  | c :: cs => allMeshesTruthy c && allMeshesTruthyList cs

end

/-- Number of direct children of label kind in a child list. -/
def directLabelCount : List SceneNode → Nat
  | [] => 0
  | c :: cs => (if c.kindOf.isLabel then 1 else 0) + directLabelCount cs

mutual

/-- Every mesh node of the tree has exactly one direct child of label
kind — one mounted label sprite per mesh. -/
def meshesLabeledOnce : SceneNode → Bool
  | .node _ k _ cs =>
    (if k = NodeKind.mesh then directLabelCount cs == 1 else true)
      && meshesLabeledOnceList cs

/-- `meshesLabeledOnce` over a forest. -/
def meshesLabeledOnceList : List SceneNode → Bool
  | [] => true
  | c :: cs => meshesLabeledOnce c && meshesLabeledOnceList cs

end

mutual

/-- The identities and `propertyValue` entries of all mesh nodes of a
tree, in traversal order. -/
def meshProps : SceneNode → List (Nat × Option PropertyValue)
  | .node i k pv cs =>
    (if k = NodeKind.mesh then [(i, pv)] else []) ++ meshPropsList cs

/-- `meshProps` over a forest. -/
def meshPropsList : List SceneNode → List (Nat × Option PropertyValue)
  | [] => []
  | c :: cs => meshProps c ++ meshPropsList cs

end

/-!
Model loading and the status observable (viewer.ts lines 27, 80-92,
119-146).  The two helpers `findThreeJSJSON` and `parseJSON` live in
src/utils/parse-json, which is not part of the sources at hand; they are
modelled from the spec below.
-/

/-- The viewer status enum, `ViewerStatus` (viewer.ts line 10). -/
inductive ViewerStatus where
  | loading
  | error
  | idle
deriving DecidableEq, Repr

/-- The initial value of the `status` BehaviorSubject
(viewer.ts line 27). -/
def statusInitialValue : ViewerStatus := ViewerStatus.idle

/-- An embedded scene-description payload as the deserializer sees it:
either it is well formed and deserializes to a tree, or it is malformed
and deserialization throws. -/
structure Payload where
  wellFormed : Bool
  tree : SceneNode

/-- The JSON document the fetch returns: an envelope that may or may not
contain the embedded scene payload somewhere within it. -/
structure Envelope where
  payload : Option Payload

/-- Modelled from the spec: `findThreeJSJSON` (src/utils/parse-json, not
among the sources) locates the embedded three.js scene payload within the
response envelope; per the guard `if (jsonObject)` in `loadModel`
(viewer.ts line 136) it returns the payload when present and a falsy
value when the envelope has none. -/
def findThreeJSJSON (e : Envelope) : Option Payload := e.payload

/-- Modelled from the spec: `parseJSON` (src/utils/parse-json, not among
the sources) deserializes the located payload into an object tree and
throws on a malformed payload; `none` stands for the throw, which the
`try`/`catch` of `loadModel` intercepts. -/
def parseJSON (p : Payload) : Option SceneNode :=
  if p.wellFormed then some p.tree else none

/-- The outcome of the one-shot `axios.get`: either the request throws
(network/transport failure) or it resolves with an envelope. -/
inductive FetchOutcome where
  | failure
  | success (env : Envelope)

/-- The observable construction-time state: every value the `status`
observable has held in order (starting from its initial value), the
`model` field, whether a loaded root was attached to the scene, rotated
and camera-fitted, and whether the `loadModel` promise was rejected with
the generic load failure. -/
structure CtorState where
  emissions : List ViewerStatus
  model : Option SceneNode
  sceneHasModel : Bool
  rotatedX : Bool
  cameraFitted : Bool
  rejectedLoad : Bool

/-- The construction-time load flow (viewer.ts lines 80-92 and 119-146)
as a function of the fetch outcome.  `loadModel` first emits `loading`
(line 120); a thrown fetch or a malformed payload lands in the `catch`,
which emits `error` and rethrows (lines 142-145); a missing payload makes
the `if (jsonObject)` guard fail so `loadModel` resolves with `undefined`
and nothing else happens; a found, well-formed payload is deserialized,
given property values and labels, and returned, whereupon the `.then`
handler in the constructor (lines 80-89) rotates it, adds it to the
scene, fits the camera, records it as `model` and emits `idle`. -/
def constructorRun (run : FetchOutcome) : CtorState :=
  let s0 : CtorState :=
    { emissions := [statusInitialValue], model := none, sceneHasModel := false,
      rotatedX := false, cameraFitted := false, rejectedLoad := false }
  let s1 : CtorState := { s0 with emissions := s0.emissions ++ [ViewerStatus.loading] }
  match run with
  | .failure =>
    { s1 with emissions := s1.emissions ++ [ViewerStatus.error], rejectedLoad := true }
  | .success env =>
    match findThreeJSJSON env with
    | none => s1
    | some p =>
      match parseJSON p with
      | none =>
        { s1 with emissions := s1.emissions ++ [ViewerStatus.error], rejectedLoad := true }
      | some tree =>
        let object3d := addLabelsToModel (assignPropertyValues tree)
        { s1 with
          model := some object3d,
          sceneHasModel := true,
          rotatedX := true,
          cameraFitted := true,
          emissions := s1.emissions ++ [ViewerStatus.idle] }

/-!
Resize handling and the render loop (viewer.ts lines 94-117).
-/

/-- The camera/renderer state the resize handler and render loop touch:
the camera aspect, the aspect currently baked into the projection matrix,
the render-surface size, the `_renderNeeded` dirty flag, and a counter of
executed draw calls (`renderer.render`).  Dimensions are rationals so the
aspect is the exact quotient. -/
structure RenderView where
  aspect : ℚ
  projAspect : ℚ
  surfaceW : ℚ
  surfaceH : ℚ
  renderNeeded : Bool
  drawCount : Nat
deriving DecidableEq, Repr

/-- `camera.updateProjectionMatrix()` — bakes the current aspect into the
projection matrix. -/
def updateProjectionMatrix (v : RenderView) : RenderView :=
  { v with projAspect := v.aspect }

/-- One execution of `Viewer._render` (viewer.ts lines 107-117), given
whether the camera controller reported an update this frame: draw (and
clear the dirty flag) exactly when the controller updated or a render was
requested, otherwise skip the draw. -/
def renderFrame (v : RenderView) (hasControlsUpdated : Bool) : RenderView :=
  if hasControlsUpdated || v.renderNeeded then
    { v with drawCount := v.drawCount + 1, renderNeeded := false }
  else v

/-- `Viewer.updateViewer` (viewer.ts lines 94-97): set the dirty flag and
run `_render` once. -/
def updateViewer (v : RenderView) (hasControlsUpdated : Bool) : RenderView :=
  renderFrame { v with renderNeeded := true } hasControlsUpdated

/-- The state mutations of the resize handler (viewer.ts lines 100-103):
`camera.aspect = innerWidth / innerHeight`, `updateProjectionMatrix()`,
`renderer.setSize(innerWidth, innerHeight)`, `_renderNeeded = true`. -/
def resizeMutations (v : RenderView) (w h : ℚ) : RenderView :=
  let v1 := { v with aspect := w / h }
  let v2 := updateProjectionMatrix v1
  let v3 := { v2 with surfaceW := w, surfaceH := h }
  { v3 with renderNeeded := true }

/-- The full resize handler (viewer.ts lines 99-105): the mutations above
followed by `updateViewer()`. -/
def resize (v : RenderView) (w h : ℚ) (hasControlsUpdated : Bool) : RenderView :=
  updateViewer (resizeMutations v w h) hasControlsUpdated

/-!
Construction-time listener registration and disposal
(viewer.ts lines 75, 78 and 300-308).
-/

/-- The global resources the viewer acquires: the window `resize`
listener, the canvas `click` listener, the mounted canvas element, the
renderer, the camera controller, and the scene children. -/
structure ViewerResources where
  resizeListener : Bool
  clickListener : Bool
  domElementMounted : Bool
  rendererDisposed : Bool
  controlsDisposed : Bool
  sceneChildCount : Nat
  renderNeeded : Bool
deriving DecidableEq, Repr

/-- The listener registrations the constructor performs:
`window.addEventListener("resize", ...)` (line 75) and the canvas click
listener (line 78); these are the only global listeners the viewer
attaches. -/
def attachViewerListeners (r : ViewerResources) : ViewerResources :=
  { r with resizeListener := true, clickListener := true }

/-- `Viewer.dispose` (viewer.ts lines 300-308): remove the resize
listener, remove the click listener, unmount the canvas, dispose the
renderer, dispose the camera controller, clear the scene, drop the dirty
flag. -/
def dispose (r : ViewerResources) : ViewerResources :=
  { r with
    resizeListener := false,
    clickListener := false,
    domElementMounted := false,
    rendererDisposed := true,
    controlsDisposed := true,
    sceneChildCount := 0,
    renderNeeded := false }

theorem reset_selected (s : SelState) (oid : Nat) :
    (resetObjectMaterial s oid).selected = s.selected := by
  unfold resetObjectMaterial
  split <;> rfl

theorem reset_objs_ne (s : SelState) (oid a : Nat) (h : a ≠ oid) :
    (resetObjectMaterial s oid).objs a = s.objs a := by
  unfold resetObjectMaterial
  split
  · simp [h]
  · rfl

theorem reset_of_none (s : SelState) (oid : Nat)
    (h : (s.objs oid).originalMaterial = none) :
    resetObjectMaterial s oid = s := by
  unfold resetObjectMaterial
  split
  · rename_i m hm
    rw [h] at hm
    exact absurd hm (by simp)
  · rfl

theorem reset_of_cached (s : SelState) (oid : Nat) (m : Nat)
    (hm : (s.objs oid).isMesh = true)
    (hc : (s.objs oid).originalMaterial = some m) :
    (resetObjectMaterial s oid).objs oid =
      { s.objs oid with material := m, originalMaterial := none } := by
  unfold resetObjectMaterial
  split
  · rename_i m2 hm2 hc2
    rw [hc] at hc2
    simp at hc2
    subst hc2
    simp
  · rename_i hno
    exact (hno m hm hc).elim

theorem reset_of_not_mesh (s : SelState) (oid : Nat)
    (h : (s.objs oid).isMesh = false) :
    resetObjectMaterial s oid = s := by
  unfold resetObjectMaterial
  split
  · rename_i m hm hc
    rw [h] at hm
    exact absurd hm (by simp)
  · rfl

theorem restorePrevious_selected (s : SelState) :
    (restorePrevious s).selected = s.selected := by
  cases hs : s.selected with
  | none => simp [restorePrevious, hs]
  | some p => simp [restorePrevious, hs, reset_selected]

theorem restorePrevious_clears (s : SelState) (h : SelInv s) :
    ∀ a, ((restorePrevious s).objs a).originalMaterial = none := by
  intro a
  cases hs : s.selected with
  | none =>
    simp only [restorePrevious, hs]
    cases hc : (s.objs a).originalMaterial with
    | none => rfl
    | some m =>
      have := (h a (by simp [hc])).1
      rw [hs] at this
      exact absurd this (by simp)
  | some p =>
    simp only [restorePrevious, hs]
    by_cases hap : a = p
    · subst hap
      cases hc : (s.objs a).originalMaterial with
      | none => rw [reset_of_none s a hc]; exact hc
      | some m =>
        have hm := (h a (by simp [hc])).2
        rw [reset_of_cached s a m hm hc]
    · rw [reset_objs_ne s p a hap]
      cases hc : (s.objs a).originalMaterial with
      | none => rfl
      | some m =>
        have := (h a (by simp [hc])).1
        rw [hs] at this
        simp at this
        exact absurd this.symm hap

theorem noCache_selInv (s : SelState)
    (h : ∀ a, (s.objs a).originalMaterial = none) : SelInv s := by
  intro a ha
  rw [h a] at ha
  exact absurd ha (by simp)

theorem highlight_preserves (s : SelState) (oid : Nat) (h : SelInv s) :
    SelInv (highlightObject s oid) := by
  intro a ha
  unfold highlightObject at ha ⊢
  by_cases hm : ((restorePrevious s).objs oid).isMesh = true
  · simp only [hm, if_pos, if_true] at ha ⊢
    by_cases hao : a = oid
    · subst hao
      simp [hm]
    · simp only [hao, if_false, if_neg] at ha
      rw [restorePrevious_clears s h a] at ha
      exact absurd ha (by simp)
  · simp only [Bool.not_eq_true] at hm
    simp only [hm, Bool.false_eq_true, if_false] at ha ⊢
    rw [restorePrevious_clears s h a] at ha
    exact absurd ha (by simp)

theorem reset_isMesh (s : SelState) (oid a : Nat) :
    ((resetObjectMaterial s oid).objs a).isMesh = (s.objs a).isMesh := by
  unfold resetObjectMaterial
  split
  · by_cases hao : a = oid
    · subst hao; simp
    · simp [hao]
  · rfl

theorem restorePrevious_isMesh (s : SelState) (a : Nat) :
    ((restorePrevious s).objs a).isMesh = (s.objs a).isMesh := by
  cases hs : s.selected with
  | none => simp [restorePrevious, hs]
  | some p => simp [restorePrevious, hs, reset_isMesh]

theorem click_preserves (s : SelState) (hit : Option Nat) (h : SelInv s) :
    SelInv (onMouseClick s hit) := by
  cases hit with
  | some oid =>
    unfold onMouseClick
    apply highlight_preserves
    apply noCache_selInv
    intro a
    exact restorePrevious_clears s h a
  | none =>
    unfold onMouseClick
    apply noCache_selInv
    intro a
    exact restorePrevious_clears s h a

theorem applySelOp_preserves (s : SelState) (op : SelOp) (h : SelInv s) :
    SelInv (applySelOp s op) := by
  cases op with
  | highlight oid => exact highlight_preserves s oid h
  | click hit => exact click_preserves s hit h

theorem applySelOps_preserves (ops : List SelOp) (s : SelState) (h : SelInv s) :
    SelInv (applySelOps ops s) := by
  induction ops generalizing s with
  | nil => exact h
  | cons op ops ih =>
    exact ih (applySelOp s op) (applySelOp_preserves s op h)

theorem highlight_restores (s : SelState) (A : Nat) (m : Nat) (h : SelInv s)
    (hc : (s.objs A).originalMaterial = some m) :
    ((restorePrevious s).objs A).material = m
    ∧ ((restorePrevious s).objs A).originalMaterial = none := by
  have hsel := (h A (by simp [hc])).1
  have hmesh := (h A (by simp [hc])).2
  have : restorePrevious s = resetObjectMaterial s A := by
    simp [restorePrevious, hsel]
  rw [this, reset_of_cached s A m hmesh hc]
  exact ⟨rfl, rfl⟩

theorem highlight_keeps_restored (s : SelState) (A B : Nat) (hAB : A ≠ B)
    (hmat : ((restorePrevious s).objs A).material = m)
    (horig : ((restorePrevious s).objs A).originalMaterial = none) :
    ((highlightObject s B).objs A).material = m
    ∧ ((highlightObject s B).objs A).originalMaterial = none := by
  unfold highlightObject
  by_cases hm : ((restorePrevious s).objs B).isMesh = true
  · simp only [hm, if_true]
    simp only [hAB, if_neg, if_false]
    exact ⟨hmat, horig⟩
  · simp only [Bool.not_eq_true] at hm
    simp only [hm, Bool.false_eq_true, if_false]
    exact ⟨hmat, horig⟩

/-- Claim C1: for every sequence of `highlightObject` and click-pick
operations from a state satisfying the selection invariant, at most one
object holds the highlight material (has an occupied `originalMaterial`
slot), and when `highlightObject B` is run while `A` is highlighted with
stashed original material `m`, the material of `A` is restored to exactly
`m` already by the reset phase (`restorePrevious`, which runs before the
highlight of `B` is applied), and stays `m` in the final state when
`A ≠ B`. -/
theorem c1_at_most_one_highlighted (ops : List SelOp) (s0 : SelState)
    (h0 : SelInv s0) :
    (∀ a b, (((applySelOps ops s0).objs a).originalMaterial).isSome = true →
        (((applySelOps ops s0).objs b).originalMaterial).isSome = true → a = b)
    ∧ (∀ A B m, ((applySelOps ops s0).objs A).originalMaterial = some m →
        ((restorePrevious (applySelOps ops s0)).objs A).material = m
        ∧ (A ≠ B →
            ((highlightObject (applySelOps ops s0) B).objs A).material = m
            ∧ ((highlightObject (applySelOps ops s0) B).objs A).originalMaterial
                = none)) := by
  have hinv := applySelOps_preserves ops s0 h0
  constructor
  · intro a b ha hb
    have h1 := (hinv a ha).1
    have h2 := (hinv b hb).1
    rw [h1] at h2
    exact Option.some_injective _ h2
  · intro A B m hc
    have hres := highlight_restores (applySelOps ops s0) A m hinv hc
    refine ⟨hres.1, fun hAB => ?_⟩
    exact highlight_keeps_restored (applySelOps ops s0) A B hAB hres.1 hres.2

/-- Witness for C1 at a concrete initial state (every object a mesh with
no stashed material) and a concrete operation sequence. -/
theorem c1_at_most_one_highlighted_witness :
    (∀ a b, (((applySelOps
          [SelOp.highlight 1, SelOp.click (some 2), SelOp.highlight 3,
           SelOp.click none, SelOp.highlight 1]
          { objs := fun i => { isMesh := true, material := i, originalMaterial := none },
            selected := none, nextMat := 100 }).objs a).originalMaterial).isSome = true →
        (((applySelOps
          [SelOp.highlight 1, SelOp.click (some 2), SelOp.highlight 3,
           SelOp.click none, SelOp.highlight 1]
          { objs := fun i => { isMesh := true, material := i, originalMaterial := none },
            selected := none, nextMat := 100 }).objs b).originalMaterial).isSome = true → a = b)
    ∧ (∀ A B m, ((applySelOps
          [SelOp.highlight 1, SelOp.click (some 2), SelOp.highlight 3,
           SelOp.click none, SelOp.highlight 1]
          { objs := fun i => { isMesh := true, material := i, originalMaterial := none },
            selected := none, nextMat := 100 }).objs A).originalMaterial = some m →
        ((restorePrevious (applySelOps
          [SelOp.highlight 1, SelOp.click (some 2), SelOp.highlight 3,
           SelOp.click none, SelOp.highlight 1]
          { objs := fun i => { isMesh := true, material := i, originalMaterial := none },
            selected := none, nextMat := 100 })).objs A).material = m
        ∧ (A ≠ B →
            ((highlightObject (applySelOps
          [SelOp.highlight 1, SelOp.click (some 2), SelOp.highlight 3,
           SelOp.click none, SelOp.highlight 1]
          { objs := fun i => { isMesh := true, material := i, originalMaterial := none },
            selected := none, nextMat := 100 }) B).objs A).material = m
            ∧ ((highlightObject (applySelOps
          [SelOp.highlight 1, SelOp.click (some 2), SelOp.highlight 3,
           SelOp.click none, SelOp.highlight 1]
          { objs := fun i => { isMesh := true, material := i, originalMaterial := none },
            selected := none, nextMat := 100 }) B).objs A).originalMaterial
                = none)) :=
  c1_at_most_one_highlighted _ _ (fun a ha => absurd ha (by simp))

/-- Claim C9: highlighting a non-mesh object `O` (e.g. a group clicked in
the hierarchy widget) restores the previous selection via the reset
phase, records `O` as the current selection, and changes no material on
`O` or on any other object beyond that restoration: the resulting object
store is exactly the one of `restorePrevious`, and a previously
highlighted mesh `p` gets back exactly its stashed material `m`. -/
theorem c9_nonmesh_highlight_no_visual_effect (s : SelState) (O : Nat)
    (h : (s.objs O).isMesh = false) :
    (highlightObject s O).selected = some O
    ∧ (∀ a, (highlightObject s O).objs a = (restorePrevious s).objs a)
    ∧ (∀ p m, s.selected = some p → (s.objs p).isMesh = true →
        (s.objs p).originalMaterial = some m →
        ((highlightObject s O).objs p).material = m
        ∧ ((highlightObject s O).objs p).originalMaterial = none) := by
  have hm : ((restorePrevious s).objs O).isMesh = false := by
    rw [restorePrevious_isMesh]; exact h
  have hobjs : ∀ a, (highlightObject s O).objs a = (restorePrevious s).objs a := by
    intro a
    unfold highlightObject
    simp only [hm, Bool.false_eq_true, if_false]
  refine ⟨?_, hobjs, ?_⟩
  · unfold highlightObject
    simp only [hm, Bool.false_eq_true, if_false]
  · intro p m hs hpm hpc
    rw [hobjs p]
    have : restorePrevious s = resetObjectMaterial s p := by
      simp [restorePrevious, hs]
    rw [this, reset_of_cached s p m hpm hpc]
    exact ⟨rfl, rfl⟩

/-- Witness for C9: a concrete state with mesh 1 highlighted (stashed
material 7) and a non-mesh object 5 being highlighted. -/
theorem c9_nonmesh_highlight_no_visual_effect_witness :
    (highlightObject
        { objs := fun i => if i = 5 then { isMesh := false, material := 0, originalMaterial := none }
            else { isMesh := true, material := 9, originalMaterial := if i = 1 then some 7 else none },
          selected := some 1, nextMat := 50 } 5).selected = some 5
    ∧ (∀ a, (highlightObject
        { objs := fun i => if i = 5 then { isMesh := false, material := 0, originalMaterial := none }
            else { isMesh := true, material := 9, originalMaterial := if i = 1 then some 7 else none },
          selected := some 1, nextMat := 50 } 5).objs a
        = (restorePrevious
        { objs := fun i => if i = 5 then { isMesh := false, material := 0, originalMaterial := none }
            else { isMesh := true, material := 9, originalMaterial := if i = 1 then some 7 else none },
          selected := some 1, nextMat := 50 }).objs a)
    ∧ (∀ p m, (some 1 : Option Nat) = some p →
        (((fun i => if i = 5 then ({ isMesh := false, material := 0, originalMaterial := none } : ObjData)
            else { isMesh := true, material := 9, originalMaterial := if i = 1 then some 7 else none }) p)).isMesh = true →
        (((fun i => if i = 5 then ({ isMesh := false, material := 0, originalMaterial := none } : ObjData)
            else { isMesh := true, material := 9, originalMaterial := if i = 1 then some 7 else none }) p)).originalMaterial = some m →
        ((highlightObject
        { objs := fun i => if i = 5 then { isMesh := false, material := 0, originalMaterial := none }
            else { isMesh := true, material := 9, originalMaterial := if i = 1 then some 7 else none },
          selected := some 1, nextMat := 50 } 5).objs p).material = m
        ∧ ((highlightObject
        { objs := fun i => if i = 5 then { isMesh := false, material := 0, originalMaterial := none }
            else { isMesh := true, material := 9, originalMaterial := if i = 1 then some 7 else none },
          selected := some 1, nextMat := 50 } 5).objs p).originalMaterial = none) :=
  c9_nonmesh_highlight_no_visual_effect _ 5 (by simp)

/-- Claim C10: `resetObjectMaterial` is idempotent and total: applying it
twice to the same object is the same as applying it once, and on a
non-mesh object, or a mesh with no stashed original material, it is the
identity. -/
theorem c10_reset_idempotent_total (s : SelState) (oid : Nat) :
    resetObjectMaterial (resetObjectMaterial s oid) oid = resetObjectMaterial s oid
    ∧ ((s.objs oid).isMesh = false → resetObjectMaterial s oid = s)
    ∧ ((s.objs oid).originalMaterial = none → resetObjectMaterial s oid = s) := by
  refine ⟨?_, reset_of_not_mesh s oid, reset_of_none s oid⟩
  by_cases hm : (s.objs oid).isMesh = true
  · cases hc : (s.objs oid).originalMaterial with
    | none => rw [reset_of_none s oid hc, reset_of_none s oid hc]
    | some m =>
      apply reset_of_none
      rw [reset_of_cached s oid m hm hc]
  · simp only [Bool.not_eq_true] at hm
    rw [reset_of_not_mesh s oid hm, reset_of_not_mesh s oid hm]

/-- Witness for C10 at concrete states: one with object 5 a cached mesh,
one with a non-mesh object 5, one with an uncached mesh 5. -/
theorem c10_reset_idempotent_total_witness :
    resetObjectMaterial (resetObjectMaterial
        { objs := fun _ => { isMesh := true, material := 3, originalMaterial := some 8 },
          selected := some 5, nextMat := 10 } 5) 5
      = resetObjectMaterial
        { objs := fun _ => { isMesh := true, material := 3, originalMaterial := some 8 },
          selected := some 5, nextMat := 10 } 5
    ∧ resetObjectMaterial
        { objs := fun _ => { isMesh := false, material := 3, originalMaterial := none },
          selected := none, nextMat := 10 } 5
      = { objs := fun _ => { isMesh := false, material := 3, originalMaterial := none },
          selected := none, nextMat := 10 }
    ∧ resetObjectMaterial
        { objs := fun _ => { isMesh := true, material := 3, originalMaterial := none },
          selected := none, nextMat := 10 } 5
      = { objs := fun _ => { isMesh := true, material := 3, originalMaterial := none },
          selected := none, nextMat := 10 } :=
  ⟨(c10_reset_idempotent_total _ 5).1,
   (c10_reset_idempotent_total _ 5).2.1 rfl,
   (c10_reset_idempotent_total _ 5).2.2 rfl⟩

mutual

theorem meshProps_assign : ∀ t : SceneNode,
    ∀ p ∈ meshProps (assignPropertyValues t), p.2 = some (statusOf p.1)
  | .node i k pv cs => by
    intro p hp
    simp only [assignPropertyValues, meshProps] at hp
    rcases List.mem_append.mp hp with hl | hr
    · by_cases hk : k = NodeKind.mesh
      · simp [hk] at hl
        subst hl
        rfl
      · simp [hk] at hl
    · exact meshPropsList_assign cs p hr

theorem meshPropsList_assign : ∀ cs : List SceneNode,
    ∀ p ∈ meshPropsList (assignPropertyValuesList cs), p.2 = some (statusOf p.1)
  | [] => by intro p hp; simp [assignPropertyValuesList, meshPropsList] at hp
  | c :: cs => by
    intro p hp
    simp only [assignPropertyValuesList, meshPropsList] at hp
    rcases List.mem_append.mp hp with hl | hr
    · exact meshProps_assign c p hl
    · exact meshPropsList_assign cs p hr

end

/-- Claim C4: after `assignPropertyValues`, every mesh node of the tree
carries `propertyValue = statusOf id`, whose status code is exactly
`(id % 4) + 1`, always within 1..4, and whose paired status text is the
`progressStatuses` entry for that code — a deterministic pure function
(`statusOf`) of the identity alone. -/
theorem c4_status_code_of_identity (t : SceneNode) (i : Nat)
    (pv : Option PropertyValue)
    (h : (i, pv) ∈ meshProps (assignPropertyValues t)) :
    pv = some (statusOf i)
    ∧ (statusOf i).statusCode = (i % 4) + 1
    ∧ 1 ≤ (statusOf i).statusCode ∧ (statusOf i).statusCode ≤ 4
    ∧ (statusOf i).statusText = progressStatuses ((i % 4) + 1) := by
  refine ⟨meshProps_assign t (i, pv) h, rfl, ?_, ?_, rfl⟩
  · simp [statusOf]
  · have : i % 4 < 4 := Nat.mod_lt i (by norm_num)
    simp only [statusOf]
    omega

/-- Witness for C4: a concrete two-mesh tree; the mesh of identity 9 gets
status code 2 (In Progress). -/
theorem c4_status_code_of_identity_witness :
    (some (statusOf 9) : Option PropertyValue) = some (statusOf 9)
    ∧ (statusOf 9).statusCode = (9 % 4) + 1
    ∧ 1 ≤ (statusOf 9).statusCode ∧ (statusOf 9).statusCode ≤ 4
    ∧ (statusOf 9).statusText = progressStatuses ((9 % 4) + 1) :=
  c4_status_code_of_identity
    (SceneNode.node 6 NodeKind.mesh none
      [SceneNode.node 3 NodeKind.other none [],
       SceneNode.node 9 NodeKind.mesh none []])
    9 (some (statusOf 9)) (by decide)

theorem countLabelsList_append (xs ys : List SceneNode) :
    countLabelsList (xs ++ ys) = countLabelsList xs + countLabelsList ys := by
  induction xs with
  | nil => simp [countLabelsList]
  | cons c cs ih => simp [countLabelsList, ih]; omega

theorem addTextLabel_kindOf (t : SceneNode) :
    (addTextLabel t).kindOf = t.kindOf := by
  rcases t with ⟨i, k, pv, cs⟩
  unfold addTextLabel
  rcases pv with _ | v
  · rfl
  · dsimp only
    split <;> rfl

theorem addLabels_kindOf (t : SceneNode) :
    (addLabelsToModel t).kindOf = t.kindOf := by
  rcases t with ⟨i, k, pv, cs⟩
  unfold addLabelsToModel
  dsimp only
  split
  · rw [addTextLabel_kindOf]
    rfl
  · rfl

theorem directLabelCount_append_label (xs : List SceneNode) (l : SceneNode)
    (hl : l.kindOf.isLabel = true) :
    directLabelCount (xs ++ [l]) = directLabelCount xs + 1 := by
  induction xs with
  | nil => simp [directLabelCount, hl]
  | cons c cs ih => simp [directLabelCount, ih]; omega

theorem directLabelCount_addList (cs : List SceneNode)
    (h : noLabelsList cs = true) :
    directLabelCount (addLabelsToModelList cs) = 0 := by
  induction cs with
  | nil => rfl
  | cons c cs ih =>
    unfold noLabelsList at h
    rw [Bool.and_eq_true] at h
    have hc : c.kindOf.isLabel = false := by
      rcases c with ⟨i, k, pv, cs2⟩
      unfold noLabels at h
      rcases h with ⟨h1, _⟩
      rw [Bool.and_eq_true] at h1
      simpa [SceneNode.kindOf] using h1.1
    unfold addLabelsToModelList directLabelCount
    rw [addLabels_kindOf, hc, ih h.2]
    simp

theorem pvTruthy_statusOf (i : Nat) : pvTruthy (some (statusOf i)) = true := by
  have h4 : i % 4 = 0 ∨ i % 4 = 1 ∨ i % 4 = 2 ∨ i % 4 = 3 := by omega
  rcases h4 with h | h | h | h <;>
    simp [pvTruthy, statusOf, progressStatuses, textTruthy, h]

mutual

theorem assign_countMeshes : ∀ t : SceneNode,
    countMeshes (assignPropertyValues t) = countMeshes t
  | .node i k pv cs => by
    unfold assignPropertyValues countMeshes
    rw [assignList_countMeshes cs]

theorem assignList_countMeshes : ∀ cs : List SceneNode,
    countMeshesList (assignPropertyValuesList cs) = countMeshesList cs
  | [] => rfl
  | c :: cs => by
    unfold assignPropertyValuesList countMeshesList
    rw [assign_countMeshes c, assignList_countMeshes cs]

end

mutual

theorem assign_noLabels : ∀ t : SceneNode,
    noLabels (assignPropertyValues t) = noLabels t
  | .node i k pv cs => by
    unfold assignPropertyValues noLabels
    rw [assignList_noLabels cs]

theorem assignList_noLabels : ∀ cs : List SceneNode,
    noLabelsList (assignPropertyValuesList cs) = noLabelsList cs
  | [] => rfl
  | c :: cs => by
    unfold assignPropertyValuesList noLabelsList
    rw [assign_noLabels c, assignList_noLabels cs]

end

mutual

theorem assign_allMeshesTruthy : ∀ t : SceneNode,
    allMeshesTruthy (assignPropertyValues t) = true
  | .node i k pv cs => by
    unfold assignPropertyValues allMeshesTruthy
    rw [assignList_allMeshesTruthy cs]
    by_cases hk : k = NodeKind.mesh
    · simp [hk, pvTruthy_statusOf]
    · simp [hk]

theorem assignList_allMeshesTruthy : ∀ cs : List SceneNode,
    allMeshesTruthyList (assignPropertyValuesList cs) = true
  | [] => rfl
  | c :: cs => by
    unfold assignPropertyValuesList allMeshesTruthyList
    rw [assign_allMeshesTruthy c, assignList_allMeshesTruthy cs]
    rfl

end

mutual

theorem noLabels_countLabels : ∀ t : SceneNode,
    noLabels t = true → countLabels t = 0
  | .node i k pv cs => by
    intro h
    unfold noLabels at h
    rw [Bool.and_eq_true] at h
    unfold countLabels
    rw [noLabelsList_countLabels cs h.2]
    simp only [Bool.not_eq_true'] at h
    rw [h.1]
    simp

theorem noLabelsList_countLabels : ∀ cs : List SceneNode,
    noLabelsList cs = true → countLabelsList cs = 0
  | [] => by intro; rfl
  | c :: cs => by
    intro h
    unfold noLabelsList at h
    rw [Bool.and_eq_true] at h
    unfold countLabelsList
    rw [noLabels_countLabels c h.1, noLabelsList_countLabels cs h.2]

end

theorem meshesLabeledOnceList_append_single (xs : List SceneNode) (l : SceneNode) :
    meshesLabeledOnceList (xs ++ [l])
      = (meshesLabeledOnceList xs && meshesLabeledOnce l) := by
  induction xs with
  | nil => simp [meshesLabeledOnceList]
  | cons c cs ih => simp [meshesLabeledOnceList, ih, Bool.and_assoc]

mutual

theorem addLabels_countLabels : ∀ t : SceneNode, allMeshesTruthy t = true →
    countLabels (addLabelsToModel t) = countLabels t + countMeshes t
  | .node i k pv cs => by
    intro h
    unfold allMeshesTruthy at h
    rw [Bool.and_eq_true] at h
    unfold addLabelsToModel
    dsimp only
    by_cases hk : k = NodeKind.mesh
    · have hpv : pvTruthy pv = true := by
        have := h.1
        rwa [if_pos hk] at this
      rcases pv with _ | v
      · simp [pvTruthy] at hpv
      · rw [if_pos hk]
        unfold addTextLabel
        dsimp only
        have hcond : (v.statusCode ≠ 0 && textTruthy v.statusText) = true := by
          simpa [pvTruthy] using hpv
        simp only [hcond, if_true]
        unfold countLabels
        rw [countLabelsList_append, addList_countLabels cs h.2]
        simp [countLabels, countLabelsList, countMeshes, NodeKind.isLabel, hk]
        omega
    · rw [if_neg hk]
      unfold countLabels countMeshes
      rw [addList_countLabels cs h.2]
      simp [hk]
      omega

theorem addList_countLabels : ∀ cs : List SceneNode, allMeshesTruthyList cs = true →
    countLabelsList (addLabelsToModelList cs) = countLabelsList cs + countMeshesList cs
  | [] => by intro; rfl
  | c :: cs => by
    intro h
    unfold allMeshesTruthyList at h
    rw [Bool.and_eq_true] at h
    unfold addLabelsToModelList countLabelsList countMeshesList
    rw [addLabels_countLabels c h.1, addList_countLabels cs h.2]
    omega

end

mutual

theorem addLabels_labeledOnce : ∀ t : SceneNode, noLabels t = true →
    allMeshesTruthy t = true →
    meshesLabeledOnce (addLabelsToModel t) = true
  | .node i k pv cs => by
    intro hn ht
    unfold noLabels at hn
    rw [Bool.and_eq_true] at hn
    unfold allMeshesTruthy at ht
    rw [Bool.and_eq_true] at ht
    unfold addLabelsToModel
    dsimp only
    by_cases hk : k = NodeKind.mesh
    · have hpv : pvTruthy pv = true := by
        have := ht.1
        rwa [if_pos hk] at this
      rcases pv with _ | v
      · simp [pvTruthy] at hpv
      · rw [if_pos hk]
        unfold addTextLabel
        dsimp only
        have hcond : (v.statusCode ≠ 0 && textTruthy v.statusText) = true := by
          simpa [pvTruthy] using hpv
        simp only [hcond, if_true]
        unfold meshesLabeledOnce
        rw [meshesLabeledOnceList_append_single,
          directLabelCount_append_label _ _ (by rfl),
          directLabelCount_addList cs hn.2,
          addList_labeledOnce cs hn.2 ht.2]
        simp [meshesLabeledOnce, meshesLabeledOnceList, directLabelCount, hk]
    · rw [if_neg hk]
      unfold meshesLabeledOnce
      rw [addList_labeledOnce cs hn.2 ht.2]
      simp [hk]

theorem addList_labeledOnce : ∀ cs : List SceneNode, noLabelsList cs = true →
    allMeshesTruthyList cs = true →
    meshesLabeledOnceList (addLabelsToModelList cs) = true
  | [] => by intros; rfl
  | c :: cs => by
    intro hn ht
    unfold noLabelsList at hn
    unfold allMeshesTruthyList at ht
    rw [Bool.and_eq_true] at hn ht
    unfold addLabelsToModelList meshesLabeledOnceList
    rw [addLabels_labeledOnce c hn.1 ht.1, addList_labeledOnce cs hn.2 ht.2]
    rfl

end

/-- Claim C5: for every label-free loaded tree (as deserialization
produces) with N mesh nodes, the load pipeline
`addLabelsToModel ∘ assignPropertyValues` creates exactly N status-label
sprites, and every mesh node of the result carries exactly one label
sprite among its children. -/
theorem c5_one_label_per_mesh (t : SceneNode) (h : noLabels t = true) :
    countLabels (addLabelsToModel (assignPropertyValues t)) = countMeshes t
    ∧ meshesLabeledOnce (addLabelsToModel (assignPropertyValues t)) = true := by
  have ht := assign_allMeshesTruthy t
  have hn : noLabels (assignPropertyValues t) = true := by
    rw [assign_noLabels]; exact h
  constructor
  · rw [addLabels_countLabels _ ht, noLabels_countLabels _ hn, assign_countMeshes]
    simp
  · exact addLabels_labeledOnce _ hn ht

/-- Witness for C5 at a concrete tree with two meshes (identities 6 and
9) and one group node. -/
theorem c5_one_label_per_mesh_witness :
    countLabels (addLabelsToModel (assignPropertyValues
        (SceneNode.node 6 NodeKind.mesh none
          [SceneNode.node 3 NodeKind.other none [],
           SceneNode.node 9 NodeKind.mesh none []])))
      = countMeshes
        (SceneNode.node 6 NodeKind.mesh none
          [SceneNode.node 3 NodeKind.other none [],
           SceneNode.node 9 NodeKind.mesh none []])
    ∧ meshesLabeledOnce (addLabelsToModel (assignPropertyValues
        (SceneNode.node 6 NodeKind.mesh none
          [SceneNode.node 3 NodeKind.other none [],
           SceneNode.node 9 NodeKind.mesh none []]))) = true :=
  c5_one_label_per_mesh _ (by decide)

/-- Claim C3: a successful fetch of a well-formed envelope makes `model`
defined (the parsed, decorated root) and the status emissions are
idle (initial), loading, idle; a fetch that throws gives emissions
idle (initial), loading, error, and `model` stays undefined. -/
theorem c3_load_success_and_failure (env : Envelope) (p : Payload)
    (hp : env.payload = some p) (hw : p.wellFormed = true) :
    ((constructorRun (FetchOutcome.success env)).model
        = some (addLabelsToModel (assignPropertyValues p.tree))
      ∧ (constructorRun (FetchOutcome.success env)).emissions
        = [ViewerStatus.idle, ViewerStatus.loading, ViewerStatus.idle])
    ∧ ((constructorRun FetchOutcome.failure).emissions
        = [ViewerStatus.idle, ViewerStatus.loading, ViewerStatus.error]
      ∧ (constructorRun FetchOutcome.failure).model = none) := by
  constructor
  · constructor <;>
      simp [constructorRun, findThreeJSJSON, parseJSON, hp, hw, statusInitialValue]
  · constructor <;> simp [constructorRun, statusInitialValue]

/-- Witness for C3 at a concrete envelope holding a well-formed payload
whose tree is a single mesh of identity 6. -/
theorem c3_load_success_and_failure_witness :
    ((constructorRun (FetchOutcome.success
        { payload := some { wellFormed := true, tree := SceneNode.node 6 NodeKind.mesh none [] } })).model
        = some (addLabelsToModel (assignPropertyValues
            (SceneNode.node 6 NodeKind.mesh none [])))
      ∧ (constructorRun (FetchOutcome.success
        { payload := some { wellFormed := true, tree := SceneNode.node 6 NodeKind.mesh none [] } })).emissions
        = [ViewerStatus.idle, ViewerStatus.loading, ViewerStatus.idle])
    ∧ ((constructorRun FetchOutcome.failure).emissions
        = [ViewerStatus.idle, ViewerStatus.loading, ViewerStatus.error]
      ∧ (constructorRun FetchOutcome.failure).model = none) :=
  c3_load_success_and_failure _ _ rfl rfl

/-- Claim C8: the status observable starts at idle (not loading), and in
every run the first two observed values are idle then loading — the
loading emission happens synchronously when `loadModel` begins,
independently of the fetch outcome. -/
theorem c8_initial_idle_then_loading :
    statusInitialValue = ViewerStatus.idle
    ∧ ∀ run : FetchOutcome, (constructorRun run).emissions.take 2
        = [ViewerStatus.idle, ViewerStatus.loading] := by
  refine ⟨rfl, ?_⟩
  intro run
  rcases run with _ | env
  · simp [constructorRun, statusInitialValue]
  · rcases henv : env.payload with _ | p
    · simp [constructorRun, findThreeJSJSON, henv, statusInitialValue]
    · rcases hw : p.wellFormed with _ | _ <;>
        simp [constructorRun, findThreeJSJSON, parseJSON, henv, hw, statusInitialValue]

/-- Claim C2 evaluation at the failing input: an envelope with no
embedded scene payload.  The run emits no error — the status observable
holds idle then loading and never transitions to error — although no
node is constructed or attached and the load promise is not rejected;
the claim (and spec) instead demand an error transition here.  For
contrast, a present but malformed payload does transition to error with
no node constructed, as do thrown fetches (see the C3 theorem). -/
theorem c2_missing_payload_never_errors :
    (constructorRun (FetchOutcome.success { payload := none })).emissions
      = [ViewerStatus.idle, ViewerStatus.loading]
    ∧ ViewerStatus.error ∉
        (constructorRun (FetchOutcome.success { payload := none })).emissions
    ∧ (constructorRun (FetchOutcome.success { payload := none })).model = none
    ∧ (constructorRun (FetchOutcome.success { payload := none })).sceneHasModel = false
    ∧ (constructorRun (FetchOutcome.success { payload := none })).rejectedLoad = false
    ∧ (constructorRun (FetchOutcome.success { payload := some { wellFormed := false, tree := SceneNode.node 0 NodeKind.other none [] } })).emissions
      = [ViewerStatus.idle, ViewerStatus.loading, ViewerStatus.error]
    ∧ (constructorRun (FetchOutcome.success { payload := some { wellFormed := false, tree := SceneNode.node 0 NodeKind.other none [] } })).model = none := by
  refine ⟨rfl, ?_, rfl, rfl, rfl, rfl, rfl⟩
  intro hmem
  simp [constructorRun, findThreeJSJSON, statusInitialValue] at hmem

/-- Claim C6: the resize handler sets the camera aspect to exactly the
quotient of the new viewport dimensions, bakes it into the projection
matrix, resizes the render surface to those dimensions and sets the
render-dirty flag, so the following `_render` frame performs a draw call
whatever the camera controller reports; the handler itself then triggers
that redraw through `updateViewer`. -/
theorem c6_resize_updates_and_redraws (v : RenderView) (w h : ℚ) (c : Bool) :
    (resizeMutations v w h).aspect = w / h
    ∧ (resizeMutations v w h).projAspect = w / h
    ∧ (resizeMutations v w h).surfaceW = w
    ∧ (resizeMutations v w h).surfaceH = h
    ∧ (resizeMutations v w h).renderNeeded = true
    ∧ (∀ c2 : Bool, (renderFrame (resizeMutations v w h) c2).drawCount
        = v.drawCount + 1)
    ∧ (resize v w h c).drawCount = v.drawCount + 1 := by
  refine ⟨rfl, rfl, rfl, rfl, rfl, ?_, ?_⟩
  · intro c2
    simp [renderFrame, resizeMutations, updateProjectionMatrix]
  · simp [resize, updateViewer, renderFrame, resizeMutations, updateProjectionMatrix]

/-- Claim C7: `dispose` removes the window resize listener and the canvas
click listener, unmounts and disposes the render surface, disposes the
camera controller and clears the scene graph; in particular, after
disposing a viewer whose constructor attached its listeners, no listener
attached by the viewer remains registered. -/
theorem c7_dispose_releases_everything (r r0 : ViewerResources) :
    (dispose r).resizeListener = false
    ∧ (dispose r).clickListener = false
    ∧ (dispose r).domElementMounted = false
    ∧ (dispose r).rendererDisposed = true
    ∧ (dispose r).controlsDisposed = true
    ∧ (dispose r).sceneChildCount = 0
    ∧ (dispose (attachViewerListeners r0)).resizeListener = false
    ∧ (dispose (attachViewerListeners r0)).clickListener = false :=
  ⟨rfl, rfl, rfl, rfl, rfl, rfl, rfl, rfl⟩
